import Mathlib

/-!
Shallow embedding of the multi-platform publish pipeline of `server.js`
(the `POST /api/publish-post` handler and its helpers), together with
theorems settling the specification claims about it.

Modelling conventions:
* Remote HTTP interactions are represented by a `RemoteEnv` record of
  responses: each Graph-API endpoint the handler calls is a field holding
  either `Except.error m` (the endpoint answered with an `error.message`
  `m`, which the handler turns into a thrown error) or `Except.ok v` (the
  endpoint answered successfully with id `v`).  A successful Graph response
  is modelled as carrying its id, matching the handler's use of
  `fbData.post_id`, `fbData.id`, `containerData.id` and `publishData.id`.
* The Instagram container-status endpoint may be polled repeatedly, so it
  is a function from the poll index (0-based, equal to the handler's
  `attempts` counter at the time of the check) to the response.
* The observable remote side effects of a run are collected in a
  `List RemoteCall` trace, in the order the handler performs them.
* JS string tests (`startsWith`) are modelled on the character list of the
  string; JS truthiness of optional request fields is modelled by `Option`.
* Caption strings are forwarded opaquely to the remote endpoints and never
  influence control flow, so the caption-building code is not modelled;
  the `Date.now()` used for fallback post ids is passed in as `now`.
-/

deriving instance DecidableEq for Except

namespace SocialPublish

/-- JS `s.startsWith(p)`, computed on the characters of the strings. -/
def strStartsWith (s p : String) : Bool :=
  List.isPrefixOf p.data s.data

/-- One remote HTTP call performed by the publish handler. -/
inductive RemoteCall where
  | fbPhotoUpload
  | fbFullPictureFetch
  | fbVideoUpload
  | igContainerCreate
  | igStatusCheck (k : Nat)
  | igMediaPublish
  deriving DecidableEq, Repr

/-- The body of a `POST /api/publish-post` request, restricted to the fields
that influence the pipeline's control flow.  `facebookPageId`,
`facebookPageAccessToken` model `facebook?.pageId` / `facebook?.pageAccessToken`
(`none` when the object or the field is absent), `igUserId` models
`instagram?.igUserId`. -/
structure PublishRequest where
  platforms : List String
  imageUrl : Option String
  facebookPageId : Option String
  facebookPageAccessToken : Option String
  igUserId : Option String
  audience : Option String
  prompt : String
  deriving DecidableEq, Repr

/-- `const isVideo = imageUrl && imageUrl.startsWith('https://')` -/
def isVideo (req : PublishRequest) : Bool :=
  match req.imageUrl with
  | some u => strStartsWith u "https://"
  | none => false

/-- `const isImage = imageUrl && imageUrl.startsWith('data:image')` -/
def isImage (req : PublishRequest) : Bool :=
  match req.imageUrl with
  | some u => strStartsWith u "data:image"
  | none => false

/-- Responses of the Facebook Graph endpoints used by the Facebook branch. -/
structure FBEnv where
  /-- `POST /{pageId}/photos`: `error.message` or `post_id`. -/
  photoResp : Except String String
  /-- `POST /{pageId}/videos`: `error.message` or `id`. -/
  videoResp : Except String String
  /-- `GET /{postId}?fields=full_picture`: the `full_picture` field, if the
  response carries one (the handler only tests its presence). -/
  fullPicture : Option String

/-- Responses of the Instagram Graph endpoints used by the Instagram branch. -/
structure IGEnv where
  /-- `POST /{igUserId}/media`: `error.message` or creation id. -/
  containerResp : Except String String
  /-- `GET /{creationId}?fields=status_code`, per poll index:
  `error.message` or `status_code`. -/
  statusResp : Nat → Except String String
  /-- `POST /{igUserId}/media_publish`: `error.message` or media id. -/
  publishResp : Except String String

/-- The whole remote world one publish request runs against, plus the mock
`mockState.YouTube.connected` flag. -/
structure RemoteEnv where
  fb : FBEnv
  ig : IGEnv
  youtubeConnected : Bool

/-- The handler's mutable locals `facebookPostId` / `facebookPhotoUrl`
(both initialised to `null`). -/
structure PubState where
  facebookPostId : Option String
  facebookPhotoUrl : Option String
  deriving DecidableEq, Repr

/-- Per-platform outcome: pushed onto `publishedTo` or onto
`failedToPublish` with a reason. -/
inductive PResult where
  | published
  | failed (reason : String)
  deriving DecidableEq, Repr

/-- The `platform === 'Facebook'` branch of the publish loop. -/
def publishFacebook (req : PublishRequest) (env : FBEnv) (s : PubState) :
    PResult × PubState × List RemoteCall :=
  if req.facebookPageId = none ∨ req.facebookPageAccessToken = none then
    (.failed "Connection details not provided.", s, [])
  else if isImage req then
    match env.photoResp with
    | .error m =>
        (.failed ("Graph API post error: " ++ m), s, [.fbPhotoUpload])
    | .ok postId =>
        (.published,
         { facebookPostId := some postId,
           facebookPhotoUrl :=
             match env.fullPicture with
             | some u => some u
             | none => s.facebookPhotoUrl },
         [.fbPhotoUpload, .fbFullPictureFetch])
  else if isVideo req then
    match env.videoResp with
    | .error m =>
        (.failed ("Graph API video post error: " ++ m), s, [.fbVideoUpload])
    | .ok vid =>
        (.published, { s with facebookPostId := some vid }, [.fbVideoUpload])
  else
    (.failed "A valid image or video was not provided for the Facebook post.",
     s, [])

/-- Result of the container-status polling loop: the loop's outcome, the
number of status checks performed, and the number of 3000 ms sleeps taken. -/
structure PollOut where
  result : Except String Unit
  checks : Nat
  sleeps : Nat
  deriving Repr

/-- The polling loop body, with `attempts` the current value of the
handler's counter and `fuel = 20 - attempts` the remaining loop budget
(`while (containerStatus !== 'FINISHED' && attempts < 20)`). -/
def pollAux (statusResp : Nat → Except String String) :
    Nat → Nat → PollOut
  | _, 0 =>
      ⟨.error "Instagram media container processing timed out.", 0, 0⟩
  | attempts, fuel + 1 =>
      match statusResp attempts with
      | .error m =>
          ⟨.error ("IG container status check failed: " ++ m), 1, 0⟩
      | .ok status =>
          if status = "ERROR" then
            ⟨.error "Instagram media container failed to process.", 1, 0⟩
          else if status = "FINISHED" then
            ⟨.ok (), 1, 0⟩
          else
            let r := pollAux statusResp (attempts + 1) fuel
            ⟨r.result, r.checks + 1, r.sleeps + 1⟩

/-- The full polling loop: `attempts` starts at 0 with a budget of 20. -/
def pollContainer (statusResp : Nat → Except String String) : PollOut :=
  pollAux statusResp 0 20

/-- The status-check calls performed by the polling loop, in order. -/
def igStatusCalls (env : IGEnv) : List RemoteCall :=
  (List.range (pollContainer env.statusResp).checks).map RemoteCall.igStatusCheck

/-- The Instagram Graph sequence once a media URL has been resolved:
container create, status polling, `media_publish`. -/
def igGraphSteps (env : IGEnv) : PResult × List RemoteCall :=
  match env.containerResp with
  | .error m =>
      (.failed ("IG container creation failed: " ++ m), [.igContainerCreate])
  | .ok _creationId =>
      match (pollContainer env.statusResp).result with
      | .error m =>
          (.failed m, .igContainerCreate :: igStatusCalls env)
      | .ok _ =>
          match env.publishResp with
          | .error m =>
              (.failed ("IG publish failed: " ++ m),
               .igContainerCreate :: igStatusCalls env ++ [.igMediaPublish])
          | .ok _mediaId =>
              (.published,
               .igContainerCreate :: igStatusCalls env ++ [.igMediaPublish])

/-- The dependency error thrown when an image post reaches Instagram
without a Facebook photo URL. -/
def igDependencyMsg : String :=
  "To post an image to Instagram, you must also select Facebook. The Instagram post uses the photo from the Facebook post."

/-- The `platform === 'Instagram'` branch of the publish loop (leaves the
handler's `facebookPostId`/`facebookPhotoUrl` state unchanged). -/
def publishInstagram (req : PublishRequest) (env : IGEnv) (s : PubState) :
    PResult × List RemoteCall :=
  if req.igUserId = none ∨ req.facebookPageAccessToken = none then
    (.failed "Connection details not provided.", [])
  else if isImage req then
    match s.facebookPhotoUrl with
    | none => (.failed igDependencyMsg, [])
    | some _url => igGraphSteps env
  else if isVideo req then
    igGraphSteps env
  else
    (.failed "No valid media URL for Instagram.", [])

/-- One iteration of `for (const platform of orderedPlatforms)`: the
platform's recorded result (`none` when the tag matches no branch and the
iteration does nothing), the updated state, and the remote calls made. -/
def runPlatform (req : PublishRequest) (env : RemoteEnv) (s : PubState)
    (p : String) : Option PResult × PubState × List RemoteCall :=
  if p = "Facebook" then
    (some (publishFacebook req env.fb s).1, (publishFacebook req env.fb s).2)
  else if p = "Instagram" then
    (some (publishInstagram req env.ig s).1, s,
     (publishInstagram req env.ig s).2)
  else if p = "YouTube" then
    (some (if env.youtubeConnected then .published
           else .failed "Not connected."), s, [])
  else
    (none, s, [])

/-- What a step appends to `publishedTo`. -/
def recordPub (p : String) : Option PResult → List String
  | some .published => [p]
  | _ => []

/-- What a step appends to `failedToPublish`. -/
def recordFail (p : String) : Option PResult → List (String × String)
  | some (.failed reason) => [(p, reason)]
  | _ => []

/-- Accumulated state of the publish loop. -/
structure Outcome where
  publishedTo : List String
  failedToPublish : List (String × String)
  calls : List RemoteCall
  st : PubState

/-- One loop iteration acting on the accumulated outcome. -/
def publishStep (req : PublishRequest) (env : RemoteEnv) (acc : Outcome)
    (p : String) : Outcome :=
  { publishedTo :=
      acc.publishedTo ++ recordPub p (runPlatform req env acc.st p).1
    failedToPublish :=
      acc.failedToPublish ++ recordFail p (runPlatform req env acc.st p).1
    calls := acc.calls ++ (runPlatform req env acc.st p).2.2
    st := (runPlatform req env acc.st p).2.1 }

/-- `const orderedPlatforms = [...platforms].sort((a) => a === 'Facebook' ? -1 : 1)`.
V8 sorts short arrays by insertion sort with this comparator: an element
moves left exactly while the comparator, applied to it and its left
neighbour, returns a negative number, i.e. exactly when it is `'Facebook'`.
So each `'Facebook'` element jumps to the front of the part already
processed and every other element stays put, which is what this fold
computes. -/
def orderedPlatforms (ps : List String) : List String :=
  ps.foldl (fun acc x => if x = "Facebook" then x :: acc else acc ++ [x]) []

/-- `publishedTo`, `failedToPublish`, `facebookPostId`, `facebookPhotoUrl`
before the loop starts. -/
def initOutcome : Outcome :=
  { publishedTo := []
    failedToPublish := []
    calls := []
    st := { facebookPostId := none, facebookPhotoUrl := none } }

/-- The whole platform loop of the handler. -/
def publishRun (req : PublishRequest) (env : RemoteEnv) : Outcome :=
  (orderedPlatforms req.platforms).foldl (publishStep req env) initOutcome

/-- The `newPost` record, restricted to the fields the pipeline computes
(the timestamp and zeroed engagement counters are omitted). -/
structure Post where
  id : String
  platforms : List String
  audience : Option String
  imageUrl : Option String
  prompt : String
  deriving DecidableEq, Repr

/-- What the handler sends back: a 400 error payload or the new post. -/
inductive PublishResponse where
  | error (message : String)
  | post (p : Post)
  deriving DecidableEq, Repr

/-- `failedToPublish.map(p => `${p.platform} (${p.reason})`).join(', ')` -/
def errorDetails (failedList : List (String × String)) : String :=
  String.intercalate ", "
    (failedList.map fun pr => pr.1 ++ " (" ++ pr.2 ++ ")")

/-- The tail of the handler after the loop: the 400 aggregate-error return
when anything failed, otherwise the `newPost` response, whose id is
`facebookPostId || post_${Date.now()}`. -/
def publishPost (req : PublishRequest) (env : RemoteEnv) (now : Nat) :
    PublishResponse :=
  let run := publishRun req env
  if run.failedToPublish ≠ [] then
    .error ("Cannot publish to some platforms. Please check connections or permissions: "
      ++ errorDetails run.failedToPublish)
  else
    .post
      { id := (run.st.facebookPostId).getD ("post_" ++ toString now)
        platforms := run.publishedTo
        audience := req.audience
        imageUrl := req.imageUrl
        prompt := req.prompt }

/-! Concrete sample requests and environments, used to instantiate the
theorems below on closed inputs. -/

/-- Remote world in which every Graph call succeeds, the photo's public URL
is available, the container finishes on the first status check, and the
mock YouTube account is connected. -/
def envAllOk : RemoteEnv :=
  { fb := { photoResp := .ok "fbpost_1", videoResp := .ok "fbvid_1",
            fullPicture := some "https://cdn/full.jpg" }
    ig := { containerResp := .ok "ctr_1",
            statusResp := fun _ => .ok "FINISHED",
            publishResp := .ok "igm_1" }
    youtubeConnected := true }

/-- Like `envAllOk`, but the follow-up `full_picture` fetch yields no URL. -/
def envNoPic : RemoteEnv :=
  { fb := { photoResp := .ok "fbpost_1", videoResp := .ok "fbvid_1",
            fullPicture := none }
    ig := { containerResp := .ok "ctr_1",
            statusResp := fun _ => .ok "FINISHED",
            publishResp := .ok "igm_1" }
    youtubeConnected := true }

/-- Status stub that always reports `IN_PROGRESS`. -/
def igInProgress : Nat → Except String String := fun _ => .ok "IN_PROGRESS"

/-- Status stub that reports `ERROR` on the first check. -/
def igErrorNow : Nat → Except String String := fun _ => .ok "ERROR"

/-- Status stub that reports `FINISHED` on the first check. -/
def igFinished : Nat → Except String String := fun _ => .ok "FINISHED"

/-- Image post aimed at Instagram and Facebook (in that input order), with
full credentials. -/
def reqBothImg : PublishRequest :=
  { platforms := ["Instagram", "Facebook"]
    imageUrl := some "data:image/jpeg;base64,abc"
    facebookPageId := some "page1"
    facebookPageAccessToken := some "tok1"
    igUserId := some "ig1"
    audience := none
    prompt := "p" }

/-- Image post aimed at Facebook and Instagram with Facebook credentials
but no resolved Instagram business-account id. -/
def reqNoIgId : PublishRequest :=
  { platforms := ["Facebook", "Instagram"]
    imageUrl := some "data:image/jpeg;base64,abc"
    facebookPageId := some "page1"
    facebookPageAccessToken := some "tok1"
    igUserId := none
    audience := none
    prompt := "p" }

/-- Image post aimed at Instagram only (Facebook never requested), with the
page access token and the Instagram business-account id present. -/
def reqIgOnlyImg : PublishRequest :=
  { platforms := ["Instagram"]
    imageUrl := some "data:image/png;base64,xyz"
    facebookPageId := none
    facebookPageAccessToken := some "tok1"
    igUserId := some "ig1"
    audience := none
    prompt := "p" }

/-- Video post aimed at Instagram only: page access token and Instagram id
present, but no Facebook page id in the request. -/
def reqIgOnlyVid : PublishRequest :=
  { platforms := ["Instagram"]
    imageUrl := some "https://cdn/v.mp4"
    facebookPageId := none
    facebookPageAccessToken := some "tok1"
    igUserId := some "ig1"
    audience := none
    prompt := "p" }

/-- Image post aimed at Facebook only, with full Facebook credentials. -/
def reqFbOnlyImg : PublishRequest :=
  { platforms := ["Facebook"]
    imageUrl := some "data:image/jpeg;base64,abc"
    facebookPageId := some "page1"
    facebookPageAccessToken := some "tok1"
    igUserId := none
    audience := none
    prompt := "p" }

/-- The post returned for `reqFbOnlyImg` against `envAllOk` at `now = 0`. -/
def postFbOnly : Post :=
  { id := "fbpost_1"
    platforms := ["Facebook"]
    audience := none
    imageUrl := some "data:image/jpeg;base64,abc"
    prompt := "p" }

/-- The post returned for `reqIgOnlyVid` against `envAllOk` at `now = 0`. -/
def postIgOnlyVid : Post :=
  { id := "post_0"
    platforms := ["Instagram"]
    audience := none
    imageUrl := some "https://cdn/v.mp4"
    prompt := "p" }

/-- Request whose media payload is neither a data URL nor a hosted URL
(absent), aimed at both real platforms with full credentials. -/
def reqNoMedia : PublishRequest :=
  { platforms := ["Facebook", "Instagram"]
    imageUrl := none
    facebookPageId := some "page1"
    facebookPageAccessToken := some "tok1"
    igUserId := some "ig1"
    audience := none
    prompt := "p" }

/-! ### Polling-loop lemmas -/

lemma pollAux_zero (f : Nat → Except String String) (a : Nat) :
    pollAux f a 0 =
      ⟨.error "Instagram media container processing timed out.", 0, 0⟩ := rfl

lemma pollAux_succ (f : Nat → Except String String) (a n : Nat) :
    pollAux f a (n + 1) =
      match f a with
      | .error m => ⟨.error ("IG container status check failed: " ++ m), 1, 0⟩
      | .ok status =>
          if status = "ERROR" then
            ⟨.error "Instagram media container failed to process.", 1, 0⟩
          else if status = "FINISHED" then
            ⟨.ok (), 1, 0⟩
          else
            ⟨(pollAux f (a + 1) n).result, (pollAux f (a + 1) n).checks + 1,
             (pollAux f (a + 1) n).sleeps + 1⟩ := rfl

lemma pollAux_checks_le (f : Nat → Except String String) :
    ∀ (fuel a : Nat), (pollAux f a fuel).checks ≤ fuel := by
  intro fuel
  induction fuel with
  | zero => intro a; simp [pollAux_zero]
  | succ n ih =>
      intro a
      rw [pollAux_succ]
      cases hr : f a with
      | error m => simp
      | ok st =>
          by_cases h1 : st = "ERROR"
          · simp [h1]
          · by_cases h2 : st = "FINISHED"
            · simp [h1, h2]
            · simp only [h1, h2, if_false]
              have := ih (a + 1)
              simp
              omega

lemma pollAux_timeout (f : Nat → Except String String) :
    ∀ (fuel a : Nat),
      (∀ k, k < fuel → ∃ st, f (a + k) = .ok st ∧ st ≠ "ERROR" ∧ st ≠ "FINISHED") →
      pollAux f a fuel =
        ⟨.error "Instagram media container processing timed out.", fuel, fuel⟩ := by
  intro fuel
  induction fuel with
  | zero => intro a _; rfl
  | succ n ih =>
      intro a h
      obtain ⟨st, hst, h1, h2⟩ := h 0 (Nat.succ_pos n)
      rw [Nat.add_zero] at hst
      have hrec : pollAux f (a + 1) n =
          ⟨.error "Instagram media container processing timed out.", n, n⟩ := by
        refine ih (a + 1) ?_
        intro k hk
        have h' := h (k + 1) (by omega)
        rwa [show a + (k + 1) = a + 1 + k by omega] at h'
      rw [pollAux_succ, hst]
      simp only [h1, h2, if_false, hrec]

lemma pollAux_error_at (f : Nat → Except String String) :
    ∀ (fuel j a : Nat), j < fuel →
      (∀ k, k < j → ∃ st, f (a + k) = .ok st ∧ st ≠ "ERROR" ∧ st ≠ "FINISHED") →
      f (a + j) = .ok "ERROR" →
      pollAux f a fuel =
        ⟨.error "Instagram media container failed to process.", j + 1, j⟩ := by
  intro fuel
  induction fuel with
  | zero => intro j a hj; omega
  | succ n ih =>
      intro j a hj hpre herr
      cases j with
      | zero =>
          rw [Nat.add_zero] at herr
          rw [pollAux_succ, herr]
          simp
      | succ j' =>
          obtain ⟨st, hst, h1, h2⟩ := hpre 0 (Nat.succ_pos j')
          rw [Nat.add_zero] at hst
          have hrec : pollAux f (a + 1) n =
              ⟨.error "Instagram media container failed to process.", j' + 1, j'⟩ := by
            refine ih j' (a + 1) (by omega) ?_ ?_
            · intro k hk
              have h' := hpre (k + 1) (by omega)
              rwa [show a + (k + 1) = a + 1 + k by omega] at h'
            · rwa [show a + (j' + 1) = a + 1 + j' by omega] at herr
          rw [pollAux_succ, hst]
          simp only [h1, h2, if_false, hrec]

lemma pollAux_ok_finished (f : Nat → Except String String) :
    ∀ (fuel a : Nat), (pollAux f a fuel).result = .ok () →
      ∃ j, j < fuel ∧ f (a + j) = .ok "FINISHED" := by
  intro fuel
  induction fuel with
  | zero => intro a h; simp [pollAux_zero] at h
  | succ n ih =>
      intro a h
      rw [pollAux_succ] at h
      cases hr : f a with
      | error m => rw [hr] at h; simp at h
      | ok st =>
          rw [hr] at h
          by_cases h1 : st = "ERROR"
          · simp [h1] at h
          · by_cases h2 : st = "FINISHED"
            · subst h2
              exact ⟨0, Nat.succ_pos n, by rwa [Nat.add_zero]⟩
            · simp only [h1, h2, if_false] at h
              obtain ⟨j, hj, hfin⟩ := ih (a + 1) h
              exact ⟨j + 1, by omega,
                by rwa [show a + (j + 1) = a + 1 + j by omega]⟩

lemma pollContainer_checks_le (f : Nat → Except String String) :
    (pollContainer f).checks ≤ 20 :=
  pollAux_checks_le f 20 0

lemma pollContainer_timeout (f : Nat → Except String String)
    (h : ∀ k, k < 20 → ∃ st, f k = .ok st ∧ st ≠ "ERROR" ∧ st ≠ "FINISHED") :
    pollContainer f =
      ⟨.error "Instagram media container processing timed out.", 20, 20⟩ :=
  pollAux_timeout f 20 0 (by intro k hk; simpa using h k hk)

lemma pollContainer_error_at (f : Nat → Except String String) (j : Nat)
    (hj : j < 20)
    (hpre : ∀ k, k < j → ∃ st, f k = .ok st ∧ st ≠ "ERROR" ∧ st ≠ "FINISHED")
    (herr : f j = .ok "ERROR") :
    pollContainer f =
      ⟨.error "Instagram media container failed to process.", j + 1, j⟩ :=
  pollAux_error_at f 20 j 0 hj (by intro k hk; simpa using hpre k hk)
    (by simpa using herr)

lemma pollContainer_ok_finished (f : Nat → Except String String)
    (h : (pollContainer f).result = .ok ()) :
    ∃ j, j < 20 ∧ f j = .ok "FINISHED" := by
  obtain ⟨j, hj, hfin⟩ := pollAux_ok_finished f 20 0 h
  exact ⟨j, hj, by simpa using hfin⟩

/-! ### Facebook-branch lemmas -/

lemma publishFacebook_noCreds (req : PublishRequest) (env : FBEnv)
    (s : PubState)
    (h : req.facebookPageId = none ∨ req.facebookPageAccessToken = none) :
    publishFacebook req env s =
      (.failed "Connection details not provided.", s, []) := by
  unfold publishFacebook
  rw [if_pos h]

lemma publishFacebook_image_ok (req : PublishRequest) (env : FBEnv)
    (s : PubState)
    (h1 : req.facebookPageId ≠ none) (h2 : req.facebookPageAccessToken ≠ none)
    (himg : isImage req = true) (pid : String)
    (hresp : env.photoResp = .ok pid) :
    publishFacebook req env s =
      (.published,
       { facebookPostId := some pid,
         facebookPhotoUrl :=
           match env.fullPicture with
           | some u => some u
           | none => s.facebookPhotoUrl },
       [.fbPhotoUpload, .fbFullPictureFetch]) := by
  unfold publishFacebook
  rw [if_neg (not_or.mpr ⟨h1, h2⟩), if_pos himg, hresp]

lemma publishFacebook_badMedia (req : PublishRequest) (env : FBEnv)
    (s : PubState)
    (h1 : req.facebookPageId ≠ none) (h2 : req.facebookPageAccessToken ≠ none)
    (himg : isImage req = false) (hvid : isVideo req = false) :
    publishFacebook req env s =
      (.failed "A valid image or video was not provided for the Facebook post.",
       s, []) := by
  unfold publishFacebook
  rw [if_neg (not_or.mpr ⟨h1, h2⟩), if_neg (by simp [himg]),
    if_neg (by simp [hvid])]

lemma publishFacebook_published (req : PublishRequest) (env : FBEnv)
    (s : PubState)
    (h : (publishFacebook req env s).1 = .published) :
    req.facebookPageId ≠ none ∧ req.facebookPageAccessToken ≠ none ∧
      ((isImage req = true ∧ ∃ pid, env.photoResp = .ok pid) ∨
       (isImage req = false ∧ isVideo req = true ∧
         ∃ vid, env.videoResp = .ok vid)) := by
  unfold publishFacebook at h
  by_cases hc : req.facebookPageId = none ∨ req.facebookPageAccessToken = none
  · rw [if_pos hc] at h
    simp at h
  · rw [if_neg hc] at h
    obtain ⟨h1, h2⟩ := not_or.mp hc
    by_cases himg : isImage req = true
    · rw [if_pos himg] at h
      cases hr : env.photoResp with
      | error m => rw [hr] at h; simp at h
      | ok pid => exact ⟨h1, h2, Or.inl ⟨himg, pid, rfl⟩⟩
    · rw [if_neg himg] at h
      by_cases hvid : isVideo req = true
      · rw [if_pos hvid] at h
        cases hr : env.videoResp with
        | error m => rw [hr] at h; simp at h
        | ok vid =>
            exact ⟨h1, h2,
              Or.inr ⟨Bool.not_eq_true _ ▸ eq_false_of_ne_true himg,
                hvid, vid, rfl⟩⟩
      · rw [if_neg hvid] at h
        simp at h

/-- Only a successful Facebook publish changes the loop state, and success
sets `facebookPostId`. -/
lemma publishFacebook_st (req : PublishRequest) (env : FBEnv) (s : PubState) :
    ((publishFacebook req env s).1 = .published ∧
      ((publishFacebook req env s).2.1.facebookPostId).isSome = true) ∨
    (publishFacebook req env s).2.1 = s := by
  unfold publishFacebook
  by_cases hc : req.facebookPageId = none ∨ req.facebookPageAccessToken = none
  · rw [if_pos hc]; right; rfl
  · rw [if_neg hc]
    by_cases himg : isImage req = true
    · rw [if_pos himg]
      cases hr : env.photoResp with
      | error m => right; rfl
      | ok pid => left; exact ⟨rfl, rfl⟩
    · rw [if_neg himg]
      by_cases hvid : isVideo req = true
      · rw [if_pos hvid]
        cases hr : env.videoResp with
        | error m => right; rfl
        | ok vid => left; exact ⟨rfl, rfl⟩
      · rw [if_neg hvid]; right; rfl

/-- `facebookPostId` never goes from set back to unset. -/
lemma publishFacebook_postId_mono (req : PublishRequest) (env : FBEnv)
    (s : PubState) (h : (s.facebookPostId).isSome = true) :
    (((publishFacebook req env s).2.1).facebookPostId).isSome = true := by
  rcases publishFacebook_st req env s with ⟨_, hsome⟩ | hkeep
  · exact hsome
  · rw [hkeep]; exact h

/-! ### Instagram-branch lemmas -/

lemma publishInstagram_noCreds (req : PublishRequest) (env : IGEnv)
    (s : PubState)
    (h : req.igUserId = none ∨ req.facebookPageAccessToken = none) :
    publishInstagram req env s =
      (.failed "Connection details not provided.", []) := by
  unfold publishInstagram
  rw [if_pos h]

lemma publishInstagram_dependency (req : PublishRequest) (env : IGEnv)
    (s : PubState)
    (h1 : req.igUserId ≠ none) (h2 : req.facebookPageAccessToken ≠ none)
    (himg : isImage req = true) (hurl : s.facebookPhotoUrl = none) :
    publishInstagram req env s = (.failed igDependencyMsg, []) := by
  unfold publishInstagram
  rw [if_neg (not_or.mpr ⟨h1, h2⟩), if_pos himg, hurl]

lemma publishInstagram_noMedia (req : PublishRequest) (env : IGEnv)
    (s : PubState)
    (h1 : req.igUserId ≠ none) (h2 : req.facebookPageAccessToken ≠ none)
    (himg : isImage req = false) (hvid : isVideo req = false) :
    publishInstagram req env s =
      (.failed "No valid media URL for Instagram.", []) := by
  unfold publishInstagram
  rw [if_neg (not_or.mpr ⟨h1, h2⟩), if_neg (by simp [himg]),
    if_neg (by simp [hvid])]

lemma igGraphSteps_published (env : IGEnv)
    (h : (igGraphSteps env).1 = .published) :
    ∃ mid, env.publishResp = .ok mid := by
  unfold igGraphSteps at h
  cases hr : env.containerResp with
  | error m => rw [hr] at h; simp at h
  | ok cid =>
      rw [hr] at h
      cases hp : (pollContainer env.statusResp).result with
      | error m => rw [hp] at h; simp at h
      | ok u =>
          rw [hp] at h
          cases hq : env.publishResp with
          | error m => rw [hq] at h; simp at h
          | ok mid => exact ⟨mid, rfl⟩

lemma igGraphSteps_mediaPublish (env : IGEnv)
    (h : RemoteCall.igMediaPublish ∈ (igGraphSteps env).2) :
    (pollContainer env.statusResp).result = .ok () := by
  unfold igGraphSteps at h
  cases hr : env.containerResp with
  | error m =>
      rw [hr] at h
      simp at h
  | ok cid =>
      rw [hr] at h
      cases hp : (pollContainer env.statusResp).result with
      | error m =>
          rw [hp] at h
          simp [igStatusCalls, List.mem_map] at h
      | ok u =>
          cases u
          rfl

lemma publishInstagram_published (req : PublishRequest) (env : IGEnv)
    (s : PubState)
    (h : (publishInstagram req env s).1 = .published) :
    req.igUserId ≠ none ∧ req.facebookPageAccessToken ≠ none ∧
      ∃ mid, env.publishResp = .ok mid := by
  unfold publishInstagram at h
  by_cases hc : req.igUserId = none ∨ req.facebookPageAccessToken = none
  · rw [if_pos hc] at h; simp at h
  · rw [if_neg hc] at h
    obtain ⟨h1, h2⟩ := not_or.mp hc
    refine ⟨h1, h2, ?_⟩
    by_cases himg : isImage req = true
    · rw [if_pos himg] at h
      cases hurl : s.facebookPhotoUrl with
      | none => rw [hurl] at h; simp at h
      | some u =>
          rw [hurl] at h
          exact igGraphSteps_published env h
    · rw [if_neg himg] at h
      by_cases hvid : isVideo req = true
      · rw [if_pos hvid] at h
        exact igGraphSteps_published env h
      · rw [if_neg hvid] at h
        simp at h

lemma publishInstagram_mediaPublish (req : PublishRequest) (env : IGEnv)
    (s : PubState)
    (h : RemoteCall.igMediaPublish ∈ (publishInstagram req env s).2) :
    ∃ j, j < 20 ∧ env.statusResp j = .ok "FINISHED" := by
  have hpoll : (pollContainer env.statusResp).result = .ok () := by
    unfold publishInstagram at h
    by_cases hc : req.igUserId = none ∨ req.facebookPageAccessToken = none
    · rw [if_pos hc] at h; simp at h
    · rw [if_neg hc] at h
      by_cases himg : isImage req = true
      · rw [if_pos himg] at h
        cases hurl : s.facebookPhotoUrl with
        | none => rw [hurl] at h; simp at h
        | some u =>
            rw [hurl] at h
            exact igGraphSteps_mediaPublish env h
      · rw [if_neg himg] at h
        by_cases hvid : isVideo req = true
        · rw [if_pos hvid] at h
          exact igGraphSteps_mediaPublish env h
        · rw [if_neg hvid] at h
          simp at h
  exact pollContainer_ok_finished env.statusResp hpoll

/-! ### Platform-dispatch lemmas -/

lemma runPlatform_facebook (req : PublishRequest) (env : RemoteEnv)
    (s : PubState) :
    runPlatform req env s "Facebook" =
      (some (publishFacebook req env.fb s).1, (publishFacebook req env.fb s).2) := by
  unfold runPlatform
  rw [if_pos rfl]

lemma runPlatform_instagram (req : PublishRequest) (env : RemoteEnv)
    (s : PubState) :
    runPlatform req env s "Instagram" =
      (some (publishInstagram req env.ig s).1, s,
       (publishInstagram req env.ig s).2) := by
  unfold runPlatform
  rw [if_neg (by decide), if_pos rfl]

lemma runPlatform_youtube (req : PublishRequest) (env : RemoteEnv)
    (s : PubState) :
    runPlatform req env s "YouTube" =
      (some (if env.youtubeConnected then .published
             else .failed "Not connected."), s, []) := by
  unfold runPlatform
  rw [if_neg (by decide), if_neg (by decide), if_pos rfl]

lemma runPlatform_other (req : PublishRequest) (env : RemoteEnv)
    (s : PubState) (p : String) (h1 : p ≠ "Facebook") (h2 : p ≠ "Instagram")
    (h3 : p ≠ "YouTube") :
    runPlatform req env s p = (none, s, []) := by
  unfold runPlatform
  rw [if_neg h1, if_neg h2, if_neg h3]

/-- Any platform other than Facebook leaves the loop state unchanged. -/
lemma runPlatform_st_of_ne_fb (req : PublishRequest) (env : RemoteEnv)
    (s : PubState) (p : String) (h : p ≠ "Facebook") :
    (runPlatform req env s p).2.1 = s := by
  unfold runPlatform
  rw [if_neg h]
  by_cases h2 : p = "Instagram"
  · rw [if_pos h2]
  · rw [if_neg h2]
    by_cases h3 : p = "YouTube"
    · rw [if_pos h3]
    · rw [if_neg h3]

/-! ### Ordering lemmas -/

lemma orderedPlatforms_foldl_decomp :
    ∀ (ps fb nf : List String),
      ps.foldl (fun acc x => if x = "Facebook" then x :: acc else acc ++ [x])
          (fb.reverse ++ nf)
        = (fb ++ ps.filter (fun x => decide (x = "Facebook"))).reverse
          ++ (nf ++ ps.filter (fun x => decide (¬x = "Facebook"))) := by
  intro ps
  induction ps with
  | nil => intro fb nf; simp
  | cons q ps ih =>
      intro fb nf
      by_cases hq : q = "Facebook"
      · rw [List.foldl_cons, if_pos hq]
        have hacc : q :: (fb.reverse ++ nf) = (fb ++ [q]).reverse ++ nf := by
          simp
        rw [hacc, ih (fb ++ [q]) nf]
        simp [List.filter_cons, hq, List.append_assoc]
      · rw [List.foldl_cons, if_neg hq]
        have hacc : fb.reverse ++ nf ++ [q] = fb.reverse ++ (nf ++ [q]) := by
          simp
        rw [hacc, ih fb (nf ++ [q])]
        simp [List.filter_cons, hq, List.append_assoc]

lemma orderedPlatforms_decomp (ps : List String) :
    orderedPlatforms ps
      = (ps.filter (fun x => decide (x = "Facebook"))).reverse
        ++ ps.filter (fun x => decide (¬x = "Facebook")) := by
  have h := orderedPlatforms_foldl_decomp ps [] []
  simpa [orderedPlatforms] using h

lemma mem_orderedPlatforms (ps : List String) (x : String) :
    x ∈ orderedPlatforms ps ↔ x ∈ ps := by
  rw [orderedPlatforms_decomp]
  simp only [List.mem_append, List.mem_reverse, List.mem_filter]
  constructor
  · rintro (⟨hx, _⟩ | ⟨hx, _⟩) <;> exact hx
  · intro hx
    by_cases h : x = "Facebook"
    · exact Or.inl ⟨hx, by simp [h]⟩
    · exact Or.inr ⟨hx, by simp [h]⟩

lemma orderedPlatforms_fb_before_ig (ps : List String) (i j : Nat)
    (hi : (orderedPlatforms ps).get? i = some "Facebook")
    (hj : (orderedPlatforms ps).get? j = some "Instagram") : i < j := by
  set L := (ps.filter (fun x => decide (x = "Facebook"))).reverse with hL
  set R := ps.filter (fun x => decide (¬x = "Facebook")) with hR
  have hdec : orderedPlatforms ps = L ++ R := orderedPlatforms_decomp ps
  have hmemL : ∀ x ∈ L, x = "Facebook" := by
    intro x hx
    rw [hL, List.mem_reverse, List.mem_filter] at hx
    exact of_decide_eq_true hx.2
  have hmemR : ∀ x ∈ R, x ≠ "Facebook" := by
    intro x hx
    rw [hR, List.mem_filter] at hx
    exact of_decide_eq_true hx.2
  have hiL : i < L.length := by
    by_contra hcon
    push_neg at hcon
    rw [hdec, List.get?_append_right hcon] at hi
    have : "Facebook" ∈ R := List.get?_mem hi
    exact hmemR _ this rfl
  have hjL : L.length ≤ j := by
    by_contra hcon
    push_neg at hcon
    rw [hdec, List.get?_append hcon] at hj
    have : "Instagram" ∈ L := List.get?_mem hj
    have := hmemL _ this
    simp at this
  omega

/-! ### Loop-fold lemmas -/

lemma publishStep_publishedTo (req : PublishRequest) (env : RemoteEnv)
    (acc : Outcome) (p : String) :
    (publishStep req env acc p).publishedTo
      = acc.publishedTo ++ recordPub p (runPlatform req env acc.st p).1 := rfl

lemma publishStep_failedToPublish (req : PublishRequest) (env : RemoteEnv)
    (acc : Outcome) (p : String) :
    (publishStep req env acc p).failedToPublish
      = acc.failedToPublish ++ recordFail p (runPlatform req env acc.st p).1 := rfl

lemma publishStep_calls (req : PublishRequest) (env : RemoteEnv)
    (acc : Outcome) (p : String) :
    (publishStep req env acc p).calls
      = acc.calls ++ (runPlatform req env acc.st p).2.2 := rfl

lemma publishStep_st (req : PublishRequest) (env : RemoteEnv)
    (acc : Outcome) (p : String) :
    (publishStep req env acc p).st = (runPlatform req env acc.st p).2.1 := rfl

lemma foldl_publishedTo_mono (req : PublishRequest) (env : RemoteEnv) :
    ∀ (L : List String) (acc : Outcome) (x : String),
      x ∈ acc.publishedTo →
      x ∈ (L.foldl (publishStep req env) acc).publishedTo := by
  intro L
  induction L with
  | nil => intro acc x hx; exact hx
  | cons q L ih =>
      intro acc x hx
      refine ih (publishStep req env acc q) x ?_
      rw [publishStep_publishedTo]
      exact List.mem_append_left _ hx

lemma foldl_failedToPublish_mono (req : PublishRequest) (env : RemoteEnv) :
    ∀ (L : List String) (acc : Outcome) (x : String × String),
      x ∈ acc.failedToPublish →
      x ∈ (L.foldl (publishStep req env) acc).failedToPublish := by
  intro L
  induction L with
  | nil => intro acc x hx; exact hx
  | cons q L ih =>
      intro acc x hx
      refine ih (publishStep req env acc q) x ?_
      rw [publishStep_failedToPublish]
      exact List.mem_append_left _ hx

/-- If a state invariant is preserved by every step for platforms of the
list, it holds after the fold. -/
lemma foldl_st_inv (req : PublishRequest) (env : RemoteEnv)
    (Inv : PubState → Prop) :
    ∀ (L : List String) (acc : Outcome),
      (∀ s p, p ∈ L → Inv s → Inv (runPlatform req env s p).2.1) →
      Inv acc.st →
      Inv ((L.foldl (publishStep req env) acc)).st := by
  intro L
  induction L with
  | nil => intro acc _ h; exact h
  | cons q L ih =>
      intro acc hpres h
      refine ih (publishStep req env acc q)
        (fun s p hp hs => hpres s p (List.mem_cons_of_mem _ hp) hs) ?_
      rw [publishStep_st]
      exact hpres acc.st q (List.mem_cons_self _ _) h

/-- A platform of the list whose step always succeeds (under a preserved
state invariant) ends up in `publishedTo`. -/
lemma foldl_mem_publishedTo (req : PublishRequest) (env : RemoteEnv)
    (Inv : PubState → Prop) (p0 : String) :
    ∀ (L : List String) (acc : Outcome),
      (∀ s p, p ∈ L → Inv s → Inv (runPlatform req env s p).2.1) →
      (∀ s, Inv s → (runPlatform req env s p0).1 = some .published) →
      Inv acc.st → p0 ∈ L →
      p0 ∈ (L.foldl (publishStep req env) acc).publishedTo := by
  intro L
  induction L with
  | nil => intro acc _ _ _ h; cases h
  | cons q L ih =>
      intro acc hpres hstep hInv hmem
      rcases List.mem_cons.mp hmem with hq | hq
      · subst hq
        refine foldl_publishedTo_mono req env L (publishStep req env acc p0)
          p0 ?_
        rw [publishStep_publishedTo, hstep acc.st hInv]
        simp [recordPub]
      · refine ih (publishStep req env acc q)
          (fun s p hp hs => hpres s p (List.mem_cons_of_mem _ hp) hs)
          hstep ?_ hq
        rw [publishStep_st]
        exact hpres acc.st q (List.mem_cons_self _ _) hInv

/-- A platform of the list whose step always fails with reason `r0` (under
a preserved state invariant) ends up in `failedToPublish` with that
reason. -/
lemma foldl_mem_failedToPublish (req : PublishRequest) (env : RemoteEnv)
    (Inv : PubState → Prop) (p0 r0 : String) :
    ∀ (L : List String) (acc : Outcome),
      (∀ s p, p ∈ L → Inv s → Inv (runPlatform req env s p).2.1) →
      (∀ s, Inv s → (runPlatform req env s p0).1 = some (.failed r0)) →
      Inv acc.st → p0 ∈ L →
      (p0, r0) ∈ (L.foldl (publishStep req env) acc).failedToPublish := by
  intro L
  induction L with
  | nil => intro acc _ _ _ h; cases h
  | cons q L ih =>
      intro acc hpres hstep hInv hmem
      rcases List.mem_cons.mp hmem with hq | hq
      · subst hq
        refine foldl_failedToPublish_mono req env L
          (publishStep req env acc p0) (p0, r0) ?_
        rw [publishStep_failedToPublish, hstep acc.st hInv]
        simp [recordFail]
      · refine ih (publishStep req env acc q)
          (fun s p hp hs => hpres s p (List.mem_cons_of_mem _ hp) hs)
          hstep ?_ hq
        rw [publishStep_st]
        exact hpres acc.st q (List.mem_cons_self _ _) hInv

/-- Everything in `publishedTo` after the fold was already there or was
put there by a successful step of some listed platform. -/
lemma foldl_publishedTo_sound (req : PublishRequest) (env : RemoteEnv) :
    ∀ (L : List String) (acc : Outcome) (x : String),
      x ∈ (L.foldl (publishStep req env) acc).publishedTo →
      x ∈ acc.publishedTo ∨
        (x ∈ L ∧ ∃ s, (runPlatform req env s x).1 = some .published) := by
  intro L
  induction L with
  | nil => intro acc x h; exact Or.inl h
  | cons q L ih =>
      intro acc x h
      rcases ih (publishStep req env acc q) x h with h' | ⟨hm, hs⟩
      · rw [publishStep_publishedTo] at h'
        rcases List.mem_append.mp h' with h1 | h2
        · exact Or.inl h1
        · right
          cases hr : (runPlatform req env acc.st q).1 with
          | none => rw [hr] at h2; simp [recordPub] at h2
          | some r =>
              cases r with
              | published =>
                  rw [hr] at h2
                  simp [recordPub] at h2
                  subst h2
                  exact ⟨List.mem_cons_self _ _, acc.st, hr⟩
              | failed reason => rw [hr] at h2; simp [recordPub] at h2
      · exact Or.inr ⟨List.mem_cons_of_mem _ hm, hs⟩

/-- Everything in `failedToPublish` after the fold was already there or was
put there by a failing step of some listed platform. -/
lemma foldl_failedToPublish_sound (req : PublishRequest) (env : RemoteEnv) :
    ∀ (L : List String) (acc : Outcome) (x : String) (r : String),
      (x, r) ∈ (L.foldl (publishStep req env) acc).failedToPublish →
      (x, r) ∈ acc.failedToPublish ∨
        (x ∈ L ∧ ∃ s, (runPlatform req env s x).1 = some (.failed r)) := by
  intro L
  induction L with
  | nil => intro acc x r h; exact Or.inl h
  | cons q L ih =>
      intro acc x r h
      rcases ih (publishStep req env acc q) x r h with h' | ⟨hm, hs⟩
      · rw [publishStep_failedToPublish] at h'
        rcases List.mem_append.mp h' with h1 | h2
        · exact Or.inl h1
        · right
          cases hr : (runPlatform req env acc.st q).1 with
          | none => rw [hr] at h2; simp [recordFail] at h2
          | some pr =>
              cases pr with
              | published => rw [hr] at h2; simp [recordFail] at h2
              | failed reason =>
                  rw [hr] at h2
                  simp [recordFail] at h2
                  obtain ⟨hx, hrr⟩ := h2
                  subst hx
                  subst hrr
                  exact ⟨List.mem_cons_self _ _, acc.st, hr⟩
      · exact Or.inr ⟨List.mem_cons_of_mem _ hm, hs⟩

/-- If every listed platform makes no remote call (under a preserved state
invariant), the fold adds no calls. -/
lemma foldl_calls_nil (req : PublishRequest) (env : RemoteEnv)
    (Inv : PubState → Prop) :
    ∀ (L : List String) (acc : Outcome),
      (∀ s p, p ∈ L → Inv s → Inv (runPlatform req env s p).2.1) →
      (∀ s p, p ∈ L → Inv s → (runPlatform req env s p).2.2 = []) →
      Inv acc.st →
      (L.foldl (publishStep req env) acc).calls = acc.calls := by
  intro L
  induction L with
  | nil => intro acc _ _ _; rfl
  | cons q L ih =>
      intro acc hpres hnil hInv
      rw [List.foldl_cons]
      have hstep : (publishStep req env acc q).calls = acc.calls := by
        rw [publishStep_calls, hnil acc.st q (List.mem_cons_self _ _) hInv]
        simp
      rw [ih (publishStep req env acc q)
        (fun s p hp hs => hpres s p (List.mem_cons_of_mem _ hp) hs)
        (fun s p hp hs => hnil s p (List.mem_cons_of_mem _ hp) hs)
        (by rw [publishStep_st]; exact hpres acc.st q (List.mem_cons_self _ _) hInv)]
      exact hstep

/-! ### `facebookPostId` tracking -/

lemma publishFacebook_published_postId (req : PublishRequest) (env : FBEnv)
    (s : PubState) (h : (publishFacebook req env s).1 = .published) :
    (((publishFacebook req env s).2.1).facebookPostId).isSome = true := by
  rcases publishFacebook_st req env s with ⟨_, hsome⟩ | hkeep
  · exact hsome
  · unfold publishFacebook at h hkeep ⊢
    by_cases hc : req.facebookPageId = none ∨ req.facebookPageAccessToken = none
    · rw [if_pos hc] at h; simp at h
    · rw [if_neg hc] at h hkeep ⊢
      by_cases himg : isImage req = true
      · rw [if_pos himg] at h hkeep ⊢
        cases hr : env.photoResp with
        | error m => rw [hr] at h; simp at h
        | ok pid => rfl
      · rw [if_neg himg] at h hkeep ⊢
        by_cases hvid : isVideo req = true
        · rw [if_pos hvid] at h hkeep ⊢
          cases hr : env.videoResp with
          | error m => rw [hr] at h; simp at h
          | ok vid => rfl
        · rw [if_neg hvid] at h; simp at h

lemma runPlatform_postId_mono (req : PublishRequest) (env : RemoteEnv)
    (s : PubState) (p : String) (h : (s.facebookPostId).isSome = true) :
    (((runPlatform req env s p).2.1).facebookPostId).isSome = true := by
  by_cases h1 : p = "Facebook"
  · subst h1
    rw [runPlatform_facebook]
    exact publishFacebook_postId_mono req env.fb s h
  · rw [runPlatform_st_of_ne_fb req env s p h1]
    exact h

lemma runPlatform_postId_new (req : PublishRequest) (env : RemoteEnv)
    (s : PubState) (p : String)
    (h : (((runPlatform req env s p).2.1).facebookPostId).isSome = true) :
    (s.facebookPostId).isSome = true ∨
      (p = "Facebook" ∧ (runPlatform req env s p).1 = some .published) := by
  by_cases h1 : p = "Facebook"
  · subst h1
    rw [runPlatform_facebook] at h ⊢
    rcases publishFacebook_st req env.fb s with ⟨hpub, _⟩ | hkeep
    · right
      exact ⟨rfl, by rw [hpub]⟩
    · left
      rw [hkeep] at h
      exact h
  · rw [runPlatform_st_of_ne_fb req env s p h1] at h
    exact Or.inl h

lemma runPlatform_fb_published_postId (req : PublishRequest)
    (env : RemoteEnv) (s : PubState)
    (h : (runPlatform req env s "Facebook").1 = some .published) :
    (((runPlatform req env s "Facebook").2.1).facebookPostId).isSome = true := by
  rw [runPlatform_facebook] at h ⊢
  have hp : (publishFacebook req env.fb s).1 = .published := by
    injection h
  exact publishFacebook_published_postId req env.fb s hp

lemma foldl_postId_mono (req : PublishRequest) (env : RemoteEnv) :
    ∀ (L : List String) (acc : Outcome),
      ((acc.st).facebookPostId).isSome = true →
      (((L.foldl (publishStep req env) acc).st).facebookPostId).isSome = true := by
  intro L
  induction L with
  | nil => intro acc h; exact h
  | cons q L ih =>
      intro acc h
      refine ih (publishStep req env acc q) ?_
      rw [publishStep_st]
      exact runPlatform_postId_mono req env acc.st q h

/-- If Facebook ends up among the published platforms, `facebookPostId` is
set at the end of the loop. -/
lemma foldl_fb_published_postId (req : PublishRequest) (env : RemoteEnv) :
    ∀ (L : List String) (acc : Outcome),
      "Facebook" ∈ (L.foldl (publishStep req env) acc).publishedTo →
      "Facebook" ∈ acc.publishedTo ∨
        (((L.foldl (publishStep req env) acc).st).facebookPostId).isSome = true := by
  intro L
  induction L with
  | nil => intro acc h; exact Or.inl h
  | cons q L ih =>
      intro acc h
      rcases ih (publishStep req env acc q) h with h' | h'
      · rw [publishStep_publishedTo] at h'
        rcases List.mem_append.mp h' with h1 | h2
        · exact Or.inl h1
        · right
          cases hr : (runPlatform req env acc.st q).1 with
          | none => rw [hr] at h2; simp [recordPub] at h2
          | some r =>
              cases r with
              | published =>
                  rw [hr] at h2
                  simp [recordPub] at h2
                  subst h2
                  refine foldl_postId_mono req env L (publishStep req env acc "Facebook") ?_
                  rw [publishStep_st]
                  exact runPlatform_fb_published_postId req env acc.st hr
              | failed reason => rw [hr] at h2; simp [recordPub] at h2
      · exact Or.inr h'

/-- Conversely, `facebookPostId` can only be set by a successful Facebook
publish, which also records Facebook as published. -/
lemma foldl_postId_published (req : PublishRequest) (env : RemoteEnv) :
    ∀ (L : List String) (acc : Outcome),
      (((L.foldl (publishStep req env) acc).st).facebookPostId).isSome = true →
      ((acc.st).facebookPostId).isSome = true ∨
        "Facebook" ∈ (L.foldl (publishStep req env) acc).publishedTo := by
  intro L
  induction L with
  | nil => intro acc h; exact Or.inl h
  | cons q L ih =>
      intro acc h
      rcases ih (publishStep req env acc q) h with h' | h'
      · rw [publishStep_st] at h'
        rcases runPlatform_postId_new req env acc.st q h' with h1 | ⟨hq, hpub⟩
        · exact Or.inl h1
        · subst hq
          right
          refine foldl_publishedTo_mono req env L (publishStep req env acc "Facebook") _ ?_
          rw [publishStep_publishedTo, hpub]
          simp [recordPub]
      · exact Or.inr h'

/-! ### Response-shape lemmas -/

lemma publishPost_error_of_failed (req : PublishRequest) (env : RemoteEnv)
    (now : Nat) (h : (publishRun req env).failedToPublish ≠ []) :
    publishPost req env now =
      .error ("Cannot publish to some platforms. Please check connections or permissions: "
        ++ errorDetails (publishRun req env).failedToPublish) := by
  unfold publishPost
  rw [if_pos h]

lemma publishPost_post_of_ok (req : PublishRequest) (env : RemoteEnv)
    (now : Nat) (h : (publishRun req env).failedToPublish = []) :
    publishPost req env now =
      .post
        { id := (((publishRun req env).st).facebookPostId).getD
            ("post_" ++ toString now)
          platforms := (publishRun req env).publishedTo
          audience := req.audience
          imageUrl := req.imageUrl
          prompt := req.prompt } := by
  unfold publishPost
  rw [if_neg (by simp [h])]

/-- Inversion: a `post` response means nothing failed, and exposes the
post's fields. -/
lemma publishPost_post_inv (req : PublishRequest) (env : RemoteEnv)
    (now : Nat) (post : Post) (h : publishPost req env now = .post post) :
    (publishRun req env).failedToPublish = [] ∧
      post.platforms = (publishRun req env).publishedTo ∧
      post.id = (((publishRun req env).st).facebookPostId).getD
        ("post_" ++ toString now) := by
  by_cases hf : (publishRun req env).failedToPublish = []
  · rw [publishPost_post_of_ok req env now hf] at h
    have := h.symm
    injection this with hpost
    subst hpost
    exact ⟨hf, rfl, rfl⟩
  · rw [publishPost_error_of_failed req env now hf] at h
    cases h

lemma publishRun_def (req : PublishRequest) (env : RemoteEnv) :
    publishRun req env
      = (orderedPlatforms req.platforms).foldl (publishStep req env)
          initOutcome := rfl

/-! ### Claim theorems -/

/-- Claim C2: for every publish request whose platforms list contains both
Facebook and Instagram, the Facebook publish step is executed strictly
before the Instagram publish step, regardless of the order of the platforms
in the input array.  The loop iterates `orderedPlatforms req.platforms`
left to right (`publishRun` folds over it), so the claim is: both platforms
survive the reordering, and in the reordered list every occurrence of
`"Facebook"` sits at a strictly smaller index than every occurrence of
`"Instagram"`. -/
theorem claim_C2 :
    (∀ ps : List String, "Facebook" ∈ ps → "Facebook" ∈ orderedPlatforms ps) ∧
    (∀ ps : List String, "Instagram" ∈ ps → "Instagram" ∈ orderedPlatforms ps) ∧
    (∀ (ps : List String) (i j : Nat),
      (orderedPlatforms ps).get? i = some "Facebook" →
      (orderedPlatforms ps).get? j = some "Instagram" → i < j) := by
  refine ⟨?_, ?_, orderedPlatforms_fb_before_ig⟩
  · intro ps h
    exact (mem_orderedPlatforms ps _).mpr h
  · intro ps h
    exact (mem_orderedPlatforms ps _).mpr h

/-- Witness for C2 at the concrete input order `[Instagram, Facebook]`. -/
theorem claim_C2_witness :
    ("Facebook" ∈ orderedPlatforms ["Instagram", "Facebook"]) ∧
    ("Instagram" ∈ orderedPlatforms ["Instagram", "Facebook"]) ∧ (0 : Nat) < 1 :=
  ⟨claim_C2.1 ["Instagram", "Facebook"] (by decide),
   claim_C2.2.1 ["Instagram", "Facebook"] (by decide),
   claim_C2.2.2 ["Instagram", "Facebook"] 0 1 (by decide) (by decide)⟩

/-- Claim C10: a requested platform tag that is none of Facebook, Instagram
or YouTube is silently skipped: its loop iteration records nothing and does
nothing, so such a tag can never appear in a returned post's `platforms`
and can never contribute a failure record (hence can never cause the
request to error). -/
theorem claim_C10 :
    (∀ (req : PublishRequest) (env : RemoteEnv) (s : PubState) (p : String),
      p ≠ "Facebook" → p ≠ "Instagram" → p ≠ "YouTube" →
      runPlatform req env s p = (none, s, [])) ∧
    (∀ (req : PublishRequest) (env : RemoteEnv) (now : Nat) (post : Post)
      (p : String),
      publishPost req env now = .post post → p ∈ post.platforms →
      p = "Facebook" ∨ p = "Instagram" ∨ p = "YouTube") ∧
    (∀ (req : PublishRequest) (env : RemoteEnv) (p r : String),
      (p, r) ∈ (publishRun req env).failedToPublish →
      p = "Facebook" ∨ p = "Instagram" ∨ p = "YouTube") := by
  refine ⟨runPlatform_other, ?_, ?_⟩
  · intro req env now post p hpost hp
    obtain ⟨_, hplat, _⟩ := publishPost_post_inv req env now post hpost
    rw [hplat, publishRun_def] at hp
    rcases foldl_publishedTo_sound req env _ _ p hp with h0 | ⟨_, s, hs⟩
    · simp [initOutcome] at h0
    · by_contra hcon
      push_neg at hcon
      rw [runPlatform_other req env s p hcon.1 hcon.2.1 hcon.2.2] at hs
      simp at hs
  · intro req env p r hp
    rw [publishRun_def] at hp
    rcases foldl_failedToPublish_sound req env _ _ p r hp with h0 | ⟨_, s, hs⟩
    · simp [initOutcome] at h0
    · by_contra hcon
      push_neg at hcon
      rw [runPlatform_other req env s p hcon.1 hcon.2.1 hcon.2.2] at hs
      simp at hs

/-- Witness for C10: the unknown tag `"TikTok"` is a no-op iteration. -/
theorem claim_C10_witness :
    runPlatform reqFbOnlyImg envAllOk
        { facebookPostId := none, facebookPhotoUrl := none } "TikTok"
      = (none, { facebookPostId := none, facebookPhotoUrl := none }, []) :=
  claim_C10.1 reqFbOnlyImg envAllOk _ "TikTok" (by decide) (by decide)
    (by decide)

/-- Claim C9: when the media payload is neither an inline `data:image` URL
nor an `https://` URL, the whole run performs no remote call at all (in
particular no partial upload for Facebook or Instagram), and each of
Facebook and Instagram — if requested with its connection details present —
is recorded as failed with its unsupported-media error message. -/
theorem claim_C9 (req : PublishRequest) (env : RemoteEnv)
    (himg : isImage req = false) (hvid : isVideo req = false) :
    (publishRun req env).calls = [] ∧
    ("Facebook" ∈ req.platforms → req.facebookPageId ≠ none →
      req.facebookPageAccessToken ≠ none →
      ("Facebook", "A valid image or video was not provided for the Facebook post.")
        ∈ (publishRun req env).failedToPublish) ∧
    ("Instagram" ∈ req.platforms → req.igUserId ≠ none →
      req.facebookPageAccessToken ≠ none →
      ("Instagram", "No valid media URL for Instagram.")
        ∈ (publishRun req env).failedToPublish) := by
  have hfbcalls : ∀ s : PubState, (publishFacebook req env.fb s).2.2 = [] := by
    intro s
    by_cases hc : req.facebookPageId = none ∨ req.facebookPageAccessToken = none
    · rw [publishFacebook_noCreds req env.fb s hc]
    · obtain ⟨h1, h2⟩ := not_or.mp hc
      rw [publishFacebook_badMedia req env.fb s h1 h2 himg hvid]
  have higcalls : ∀ s : PubState, (publishInstagram req env.ig s).2 = [] := by
    intro s
    by_cases hc : req.igUserId = none ∨ req.facebookPageAccessToken = none
    · rw [publishInstagram_noCreds req env.ig s hc]
    · obtain ⟨h1, h2⟩ := not_or.mp hc
      rw [publishInstagram_noMedia req env.ig s h1 h2 himg hvid]
  have hnil : ∀ (s : PubState) (p : String),
      (runPlatform req env s p).2.2 = [] := by
    intro s p
    by_cases h1 : p = "Facebook"
    · subst h1
      rw [runPlatform_facebook]
      exact hfbcalls s
    · by_cases h2 : p = "Instagram"
      · subst h2
        rw [runPlatform_instagram]
        exact higcalls s
      · by_cases h3 : p = "YouTube"
        · subst h3
          rw [runPlatform_youtube]
        · rw [runPlatform_other req env s p h1 h2 h3]
  refine ⟨?_, ?_, ?_⟩
  · rw [publishRun_def]
    exact foldl_calls_nil req env (fun _ => True) _ initOutcome
      (fun _ _ _ _ => trivial) (fun s p _ _ => hnil s p) trivial
  · intro hmem h1 h2
    rw [publishRun_def]
    refine foldl_mem_failedToPublish req env (fun _ => True) "Facebook" _
      _ initOutcome (fun _ _ _ _ => trivial) ?_ trivial
      ((mem_orderedPlatforms req.platforms _).mpr hmem)
    intro s _
    rw [runPlatform_facebook, publishFacebook_badMedia req env.fb s h1 h2 himg hvid]
  · intro hmem h1 h2
    rw [publishRun_def]
    refine foldl_mem_failedToPublish req env (fun _ => True) "Instagram" _
      _ initOutcome (fun _ _ _ _ => trivial) ?_ trivial
      ((mem_orderedPlatforms req.platforms _).mpr hmem)
    intro s _
    rw [runPlatform_instagram, publishInstagram_noMedia req env.ig s h1 h2 himg hvid]

/-- Witness for C9: a request with no media payload, aimed at Facebook and
Instagram with full credentials. -/
theorem claim_C9_witness :
    (publishRun reqNoMedia envAllOk).calls = [] ∧
    ("Facebook", "A valid image or video was not provided for the Facebook post.")
      ∈ (publishRun reqNoMedia envAllOk).failedToPublish ∧
    ("Instagram", "No valid media URL for Instagram.")
      ∈ (publishRun reqNoMedia envAllOk).failedToPublish := by
  have h := claim_C9 reqNoMedia envAllOk (by decide) (by decide)
  exact ⟨h.1, h.2.1 (by decide) (by decide) (by decide),
    h.2.2 (by decide) (by decide) (by decide)⟩

lemma publishFacebook_photoUrl_pres (req : PublishRequest) (env : FBEnv)
    (s : PubState) (hnopic : env.fullPicture = none)
    (hs : s.facebookPhotoUrl = none) :
    ((publishFacebook req env s).2.1).facebookPhotoUrl = none := by
  unfold publishFacebook
  by_cases hc : req.facebookPageId = none ∨ req.facebookPageAccessToken = none
  · rw [if_pos hc]
    exact hs
  · rw [if_neg hc]
    by_cases himg : isImage req = true
    · rw [if_pos himg]
      cases hr : env.photoResp with
      | error m => exact hs
      | ok pid =>
          show (match env.fullPicture with
            | some u => some u
            | none => s.facebookPhotoUrl) = none
          rw [hnopic]
          exact hs
    · rw [if_neg himg]
      by_cases hvid : isVideo req = true
      · rw [if_pos hvid]
        cases hr : env.videoResp with
        | error m => exact hs
        | ok vid => exact hs
      · rw [if_neg hvid]
        exact hs

/-- Claim C3: an image post reaching the Instagram step with no Facebook
photo URL available fails immediately with the dependency error, making no
remote call at all (in particular no container-create call); and a request
targeting Instagram with an image but without Facebook produces that
failure record while the whole run performs no remote call, so no Facebook
publish happens as a side effect. -/
theorem claim_C3 :
    (∀ (req : PublishRequest) (env : IGEnv) (s : PubState),
      isImage req = true → s.facebookPhotoUrl = none →
      req.igUserId ≠ none → req.facebookPageAccessToken ≠ none →
      publishInstagram req env s = (.failed igDependencyMsg, [])) ∧
    (∀ (req : PublishRequest) (env : RemoteEnv),
      isImage req = true → "Facebook" ∉ req.platforms →
      "Instagram" ∈ req.platforms →
      req.igUserId ≠ none → req.facebookPageAccessToken ≠ none →
      ("Instagram", igDependencyMsg) ∈ (publishRun req env).failedToPublish ∧
      (publishRun req env).calls = []) := by
  constructor
  · intro req env s himg hurl h1 h2
    exact publishInstagram_dependency req env s h1 h2 himg hurl
  · intro req env himg hnofb hig h1 h2
    have hne : ∀ p, p ∈ orderedPlatforms req.platforms → p ≠ "Facebook" := by
      intro p hp hcon
      subst hcon
      exact hnofb ((mem_orderedPlatforms req.platforms _).mp hp)
    have hpres : ∀ (s : PubState) (p : String),
        p ∈ orderedPlatforms req.platforms → s.facebookPhotoUrl = none →
        ((runPlatform req env s p).2.1).facebookPhotoUrl = none := by
      intro s p hp hs
      rw [runPlatform_st_of_ne_fb req env s p (hne p hp)]
      exact hs
    constructor
    · rw [publishRun_def]
      refine foldl_mem_failedToPublish req env
        (fun s => s.facebookPhotoUrl = none) "Instagram" igDependencyMsg _
        initOutcome hpres ?_ rfl
        ((mem_orderedPlatforms req.platforms _).mpr hig)
      intro s hs
      rw [runPlatform_instagram,
        publishInstagram_dependency req env.ig s h1 h2 himg hs]
    · rw [publishRun_def]
      refine foldl_calls_nil req env (fun s => s.facebookPhotoUrl = none) _
        initOutcome hpres ?_ rfl
      intro s p hp hs
      by_cases hpi : p = "Instagram"
      · subst hpi
        rw [runPlatform_instagram,
          publishInstagram_dependency req env.ig s h1 h2 himg hs]
      · by_cases hpy : p = "YouTube"
        · subst hpy
          rw [runPlatform_youtube]
        · rw [runPlatform_other req env s p (hne p hp) hpi hpy]

/-- Witness for C3: an image post targeting Instagram only. -/
theorem claim_C3_witness :
    ("Instagram", igDependencyMsg)
      ∈ (publishRun reqIgOnlyImg envAllOk).failedToPublish ∧
    (publishRun reqIgOnlyImg envAllOk).calls = [] :=
  claim_C3.2 reqIgOnlyImg envAllOk (by decide) (by decide) (by decide)
    (by decide) (by decide)

/-- Claim C5: if the Facebook photo upload succeeds but the follow-up
`full_picture` fetch yields no URL, Facebook is still recorded as
published, the public photo URL stays unset for the whole run, and a
requested Instagram image publish in the same request fails with the
dependency error (the run is total, so it cannot crash). -/
theorem claim_C5 (req : PublishRequest) (env : RemoteEnv) (pid : String)
    (himg : isImage req = true)
    (hfb1 : req.facebookPageId ≠ none)
    (hfb2 : req.facebookPageAccessToken ≠ none)
    (hig : req.igUserId ≠ none)
    (hphoto : env.fb.photoResp = .ok pid)
    (hnopic : env.fb.fullPicture = none)
    (hmemFb : "Facebook" ∈ req.platforms)
    (hmemIg : "Instagram" ∈ req.platforms) :
    "Facebook" ∈ (publishRun req env).publishedTo ∧
    ("Instagram", igDependencyMsg) ∈ (publishRun req env).failedToPublish ∧
    ((publishRun req env).st).facebookPhotoUrl = none := by
  have hpres : ∀ (s : PubState) (p : String),
      p ∈ orderedPlatforms req.platforms → s.facebookPhotoUrl = none →
      ((runPlatform req env s p).2.1).facebookPhotoUrl = none := by
    intro s p _ hs
    by_cases hpf : p = "Facebook"
    · subst hpf
      rw [runPlatform_facebook]
      exact publishFacebook_photoUrl_pres req env.fb s hnopic hs
    · rw [runPlatform_st_of_ne_fb req env s p hpf]
      exact hs
  refine ⟨?_, ?_, ?_⟩
  · rw [publishRun_def]
    refine foldl_mem_publishedTo req env (fun s => s.facebookPhotoUrl = none)
      "Facebook" _ initOutcome hpres ?_ rfl
      ((mem_orderedPlatforms req.platforms _).mpr hmemFb)
    intro s _
    rw [runPlatform_facebook,
      publishFacebook_image_ok req env.fb s hfb1 hfb2 himg pid hphoto]
  · rw [publishRun_def]
    refine foldl_mem_failedToPublish req env
      (fun s => s.facebookPhotoUrl = none) "Instagram" igDependencyMsg _
      initOutcome hpres ?_ rfl
      ((mem_orderedPlatforms req.platforms _).mpr hmemIg)
    intro s hs
    rw [runPlatform_instagram,
      publishInstagram_dependency req env.ig s hig hfb2 himg hs]
  · rw [publishRun_def]
    exact foldl_st_inv req env (fun s => s.facebookPhotoUrl = none) _
      initOutcome hpres rfl

/-- Witness for C5: image post to Instagram and Facebook, photo upload
succeeding but the `full_picture` fetch yielding nothing. -/
theorem claim_C5_witness :
    "Facebook" ∈ (publishRun reqBothImg envNoPic).publishedTo ∧
    ("Instagram", igDependencyMsg)
      ∈ (publishRun reqBothImg envNoPic).failedToPublish ∧
    ((publishRun reqBothImg envNoPic).st).facebookPhotoUrl = none :=
  claim_C5 reqBothImg envNoPic "fbpost_1" (by decide) (by decide) (by decide)
    (by decide) rfl rfl (by decide) (by decide)

/-- Claim C6: every platform in a returned post's `platforms` field was
requested, and was confirmed: Facebook only with its credentials present
and a successful photo (image case) or video (video case) Graph response,
Instagram only with its connection details present and a successful
`media_publish` Graph response, and the mock YouTube platform only while
its mock connected state is true. -/
theorem claim_C6 (req : PublishRequest) (env : RemoteEnv) (now : Nat)
    (post : Post) (h : publishPost req env now = .post post) :
    ∀ p, p ∈ post.platforms →
      p ∈ req.platforms ∧
      (p = "Facebook" →
        req.facebookPageId ≠ none ∧ req.facebookPageAccessToken ≠ none ∧
        ((isImage req = true ∧ ∃ pid, env.fb.photoResp = .ok pid) ∨
         (isImage req = false ∧ isVideo req = true ∧
           ∃ vid, env.fb.videoResp = .ok vid))) ∧
      (p = "Instagram" →
        req.igUserId ≠ none ∧ req.facebookPageAccessToken ≠ none ∧
        ∃ mid, env.ig.publishResp = .ok mid) ∧
      (p = "YouTube" → env.youtubeConnected = true) := by
  intro p hp
  obtain ⟨_, hplat, _⟩ := publishPost_post_inv req env now post h
  rw [hplat, publishRun_def] at hp
  rcases foldl_publishedTo_sound req env _ _ p hp with h0 | ⟨hmem, s, hs⟩
  · simp [initOutcome] at h0
  · refine ⟨(mem_orderedPlatforms req.platforms _).mp hmem, ?_, ?_, ?_⟩
    · intro hpf
      subst hpf
      rw [runPlatform_facebook] at hs
      exact publishFacebook_published req env.fb s (Option.some.inj hs)
    · intro hpi
      subst hpi
      rw [runPlatform_instagram] at hs
      exact publishInstagram_published req env.ig s (Option.some.inj hs)
    · intro hpy
      subst hpy
      rw [runPlatform_youtube] at hs
      have hs' := Option.some.inj hs
      cases hyt : env.youtubeConnected
      · rw [hyt] at hs'
        simp at hs'
      · rfl

/-- Witness for C6: the Facebook-only image request against the all-ok
environment. -/
theorem claim_C6_witness :
    "Facebook" ∈ reqFbOnlyImg.platforms ∧
      (isImage reqFbOnlyImg = true ∧ ∃ pid, envAllOk.fb.photoResp = .ok pid) := by
  have h := claim_C6 reqFbOnlyImg envAllOk 0 postFbOnly (by decide) "Facebook"
    (by decide)
  refine ⟨h.1, ?_⟩
  rcases (h.2.1 rfl).2.2 with hok | ⟨hf, _⟩
  · exact hok
  · exact absurd hf (by decide)

/-- Counterexample to claim C7 as stated: a video request whose Facebook
page id is absent (so "the Facebook credentials" are not all present in the
request) still has Instagram attempted — the container-create call happens —
and Instagram is published, not recorded as failed: only the page access
token and the Instagram business-account id are checked. -/
theorem claim_C7_counterexample :
    reqIgOnlyVid.facebookPageId = none ∧
    RemoteCall.igContainerCreate ∈ (publishRun reqIgOnlyVid envAllOk).calls ∧
    "Instagram" ∈ (publishRun reqIgOnlyVid envAllOk).publishedTo ∧
    ("Instagram", "Connection details not provided.")
      ∉ (publishRun reqIgOnlyVid envAllOk).failedToPublish := by
  decide

/-- Claim C7 as amended: Instagram publishing is attempted only when both
the Facebook page access token and a resolved Instagram business-account id
are present in the request (the Facebook page id is not required); if
either is absent, the Instagram step makes no remote call and is recorded
as failed with reason "Connection details not provided." — and a requested
Instagram gets that failure record in the run.  Likewise Facebook is
recorded as failed with that reason when its page id or page access token
is missing. -/
theorem claim_C7_amended :
    (∀ (req : PublishRequest) (env : IGEnv) (s : PubState),
      req.igUserId = none ∨ req.facebookPageAccessToken = none →
      publishInstagram req env s =
        (.failed "Connection details not provided.", [])) ∧
    (∀ (req : PublishRequest) (env : FBEnv) (s : PubState),
      req.facebookPageId = none ∨ req.facebookPageAccessToken = none →
      publishFacebook req env s =
        (.failed "Connection details not provided.", s, [])) ∧
    (∀ (req : PublishRequest) (env : RemoteEnv),
      "Instagram" ∈ req.platforms →
      req.igUserId = none ∨ req.facebookPageAccessToken = none →
      ("Instagram", "Connection details not provided.")
        ∈ (publishRun req env).failedToPublish) ∧
    (∀ (req : PublishRequest) (env : RemoteEnv),
      "Facebook" ∈ req.platforms →
      req.facebookPageId = none ∨ req.facebookPageAccessToken = none →
      ("Facebook", "Connection details not provided.")
        ∈ (publishRun req env).failedToPublish) := by
  refine ⟨publishInstagram_noCreds, publishFacebook_noCreds, ?_, ?_⟩
  · intro req env hmem hc
    rw [publishRun_def]
    refine foldl_mem_failedToPublish req env (fun _ => True) "Instagram" _ _
      initOutcome (fun _ _ _ _ => trivial) ?_ trivial
      ((mem_orderedPlatforms req.platforms _).mpr hmem)
    intro s _
    rw [runPlatform_instagram, publishInstagram_noCreds req env.ig s hc]
  · intro req env hmem hc
    rw [publishRun_def]
    refine foldl_mem_failedToPublish req env (fun _ => True) "Facebook" _ _
      initOutcome (fun _ _ _ _ => trivial) ?_ trivial
      ((mem_orderedPlatforms req.platforms _).mpr hmem)
    intro s _
    rw [runPlatform_facebook, publishFacebook_noCreds req env.fb s hc]

/-- Witness for the amended C7: a request targeting Instagram with no
resolved business-account id gets the failure record. -/
theorem claim_C7_amended_witness :
    ("Instagram", "Connection details not provided.")
      ∈ (publishRun reqNoIgId envAllOk).failedToPublish :=
  claim_C7_amended.2.2.1 reqNoIgId envAllOk (by decide) (Or.inl rfl)

/-- Counterexample to claim C1 as stated: in a request where Facebook
succeeds and Instagram fails, the handler returns the 400 aggregate error
and no post at all — successes are not returned when any platform failed. -/
theorem claim_C1_counterexample :
    "Facebook" ∈ (publishRun reqNoIgId envAllOk).publishedTo ∧
    ("Instagram", "Connection details not provided.")
      ∈ (publishRun reqNoIgId envAllOk).failedToPublish ∧
    publishPost reqNoIgId envAllOk 0 =
      .error "Cannot publish to some platforms. Please check connections or permissions: Instagram (Connection details not provided.)" := by
  decide

/-- Claim C1 as amended: whenever any requested platform fails, the
operation returns a hard error and no post, whose message lists every
failed platform with its reason in the format `<platform> (<reason>)`,
comma-joined (see `errorDetails`); a post — containing exactly the
succeeded platforms — is returned only when no requested platform failed. -/
theorem claim_C1_amended (req : PublishRequest) (env : RemoteEnv)
    (now : Nat) :
    ((publishRun req env).failedToPublish ≠ [] →
      publishPost req env now =
        .error ("Cannot publish to some platforms. Please check connections or permissions: "
          ++ errorDetails (publishRun req env).failedToPublish)) ∧
    ((publishRun req env).failedToPublish = [] →
      ∃ post : Post, publishPost req env now = .post post ∧
        post.platforms = (publishRun req env).publishedTo) := by
  constructor
  · exact publishPost_error_of_failed req env now
  · intro h
    exact ⟨_, publishPost_post_of_ok req env now h, rfl⟩

/-- Witness for the amended C1 at the concrete mixed-outcome input. -/
theorem claim_C1_amended_witness :
    publishPost reqNoIgId envAllOk 0 =
      .error ("Cannot publish to some platforms. Please check connections or permissions: "
        ++ errorDetails (publishRun reqNoIgId envAllOk).failedToPublish) :=
  (claim_C1_amended reqNoIgId envAllOk 0).1 (by decide)

/-- Counterexample to claim C8 as stated: a video publish to Instagram
alone succeeds — the returned post's `platforms` contains the succeeded
platform Instagram — yet the post id is the locally generated
`post_`-prefixed id, not a platform-assigned one. -/
theorem claim_C8_counterexample :
    publishPost reqIgOnlyVid envAllOk 0 = .post postIgOnlyVid ∧
    postIgOnlyVid.platforms = ["Instagram"] ∧
    strStartsWith postIgOnlyVid.id "post_" = true := by
  decide

/-- Claim C8 as amended: for every returned post, the id is the
Facebook-assigned remote post id exactly when Facebook is among the
succeeded platforms; otherwise — even when Instagram or YouTube succeeded —
it is the locally generated id `post_` followed by the timestamp. -/
theorem claim_C8_amended (req : PublishRequest) (env : RemoteEnv)
    (now : Nat) (post : Post) (h : publishPost req env now = .post post) :
    ("Facebook" ∈ post.platforms →
      ∃ pid, ((publishRun req env).st).facebookPostId = some pid ∧
        post.id = pid) ∧
    ("Facebook" ∉ post.platforms → post.id = "post_" ++ toString now) := by
  obtain ⟨hfail, hplat, hid⟩ := publishPost_post_inv req env now post h
  constructor
  · intro hmem
    rw [hplat, publishRun_def] at hmem
    rcases foldl_fb_published_postId req env _ initOutcome hmem with h0 | hsome
    · simp [initOutcome] at h0
    · obtain ⟨pid, hpid⟩ := Option.isSome_iff_exists.mp hsome
      rw [publishRun_def]
      refine ⟨pid, hpid, ?_⟩
      rw [hid, publishRun_def, hpid]
      rfl
  · intro hmem
    rw [hid]
    cases hpid : (((publishRun req env).st)).facebookPostId with
    | none => rfl
    | some pid =>
        exfalso
        have hsome : ((((publishRun req env).st)).facebookPostId).isSome = true := by
          rw [hpid]
          rfl
        rw [publishRun_def] at hsome
        rcases foldl_postId_published req env _ initOutcome hsome with h0 | hfb
        · simp [initOutcome] at h0
        · exact hmem (by rw [hplat, publishRun_def]; exact hfb)

/-- Witness for the amended C8: Facebook-only success yields the
Facebook-assigned post id. -/
theorem claim_C8_amended_witness :
    ∃ pid, ((publishRun reqFbOnlyImg envAllOk).st).facebookPostId = some pid ∧
      postFbOnly.id = pid :=
  (claim_C8_amended reqFbOnlyImg envAllOk 0 postFbOnly (by decide)).1
    (by decide)

/-- Claim C4: the container-status polling loop performs at most 20 status
checks, with a 3000 ms sleep after every check that does not end the loop
(the `sleeps` count): if every check reports a non-terminal status the loop
stops after exactly 20 checks and 20 sleeps (~60 s) with the
"processing timed out" error; a check reporting `ERROR` fails immediately
(check `j` is the last, with no sleep after it); and the `media_publish`
call is reached only when some check — within the budget of 20 — returned
`FINISHED`. -/
theorem claim_C4 :
    (∀ f : Nat → Except String String, (pollContainer f).checks ≤ 20) ∧
    (∀ f : Nat → Except String String,
      (∀ k, k < 20 → ∃ st, f k = .ok st ∧ st ≠ "ERROR" ∧ st ≠ "FINISHED") →
      pollContainer f =
        ⟨.error "Instagram media container processing timed out.", 20, 20⟩) ∧
    (∀ (f : Nat → Except String String) (j : Nat), j < 20 →
      (∀ k, k < j → ∃ st, f k = .ok st ∧ st ≠ "ERROR" ∧ st ≠ "FINISHED") →
      f j = .ok "ERROR" →
      pollContainer f =
        ⟨.error "Instagram media container failed to process.", j + 1, j⟩) ∧
    (∀ (req : PublishRequest) (env : IGEnv) (s : PubState),
      RemoteCall.igMediaPublish ∈ (publishInstagram req env s).2 →
      ∃ j, j < 20 ∧ env.statusResp j = .ok "FINISHED") :=
  ⟨pollContainer_checks_le, pollContainer_timeout, pollContainer_error_at,
   publishInstagram_mediaPublish⟩

/-- Witness for C4: the always-`IN_PROGRESS` stub times out after exactly
20 checks; an immediate `ERROR` stops after one check; the all-ok
environment reaches `media_publish` with a `FINISHED` check. -/
theorem claim_C4_witness :
    (pollContainer igInProgress).checks ≤ 20 ∧
    pollContainer igInProgress =
      ⟨.error "Instagram media container processing timed out.", 20, 20⟩ ∧
    pollContainer igErrorNow =
      ⟨.error "Instagram media container failed to process.", 1, 0⟩ ∧
    (∃ j, j < 20 ∧ envAllOk.ig.statusResp j = .ok "FINISHED") := by
  refine ⟨claim_C4.1 igInProgress, ?_, ?_, ?_⟩
  · refine claim_C4.2.1 igInProgress ?_
    intro k _
    exact ⟨"IN_PROGRESS", rfl, by decide, by decide⟩
  · refine claim_C4.2.2.1 igErrorNow 0 (by decide) ?_ rfl
    intro k hk
    exact absurd hk (by omega)
  · exact claim_C4.2.2.2 reqIgOnlyVid envAllOk.ig
      { facebookPostId := none, facebookPhotoUrl := none } (by decide)

end SocialPublish
